import Mathlib

/-!
Shallow embedding of the ATP settlement service core
(`src/rust_settlement_api/settlement_service.rs`).

Modelling conventions:
* `f64` arithmetic is modelled by exact rational arithmetic (`ℚ`);
  `x as u64` (truncation toward zero with saturation at 0 for negative
  values) is modelled by `f64toU64 q = (⌊q⌋).toNat`, which agrees with the
  Rust cast on all non-negative values and maps negative values to 0.
* `u64` subtraction is modelled by truncated `Nat` subtraction; the theorems
  establish `fee ≤ total` before relying on it.
* `serde_json::Value` is modelled by the inductive `JsonValue`; JSON numbers
  carry an exact rational. `i64`/`u64` range saturation is not modelled.
* External library calls (HTTP fetch, base-58 / JSON decoding of the
  credential string, ed25519 public-key derivation, Solana RPC) are modelled
  by explicit oracle parameters describing their outcome, so that the
  control flow of the source functions is embedded exactly.
* The dynamic error values (`Box<dyn Error>` with message strings in the
  source) are modelled by the inductives `PriceError` and `SettleError`,
  one constructor per distinct error site of the source.
-/

namespace ATP

attribute [local semireducible] Rat.mul Rat.add Rat.sub Rat.inv

/-- Kernel-computable floor of a rational (agrees with `Int.floor`). -/
def ratFloor (q : ℚ) : ℤ := q.num / (q.den : ℤ)

/-- Kernel-computable ceiling of a rational (agrees with `Int.ceil`). -/
def ratCeil (q : ℚ) : ℤ := -ratFloor (-q)

/-- Kernel-computable model of `str::trim` (whitespace stripped from both
ends). -/
def trim_string (s : String) : String :=
  String.mk (((s.data.dropWhile Char.isWhitespace).reverse.dropWhile
    Char.isWhitespace).reverse)

/-- Kernel-computable model of `str::to_uppercase` (ASCII as in the
symbols this service handles). -/
def to_uppercase (s : String) : String :=
  String.mk (s.data.map Char.toUpper)

/-- Model of `serde_json::Value`; numbers are exact rationals. -/
inductive JsonValue where
  | null : JsonValue
  | bool (b : Bool) : JsonValue
  | num (q : ℚ) : JsonValue
  | str (s : String) : JsonValue
  | arr (elems : List JsonValue) : JsonValue
  | obj (fields : List (String × JsonValue)) : JsonValue

/-- Lookup in a JSON object, modelling `serde_json::Map::get` (field names
are unique in a serde map; we take the first match). -/
def lookupJ : List (String × JsonValue) → String → Option JsonValue
  | [], _ => none
  | (k, v) :: rest, key => if k = key then some v else lookupJ rest key

/-- Truncation of a rational toward zero, modelling Rust `f as i64`. -/
def ratTrunc (q : ℚ) : ℤ := if 0 ≤ q then ratFloor q else ratCeil q

/-- Parse a run of decimal digits, `none` if empty or a non-digit occurs. -/
def parseDigits : List Char → Option ℕ
  | [] => none
  | cs =>
    cs.foldlM (fun acc c =>
      if c.isDigit then some (acc * 10 + (c.toNat - 48)) else none) 0

/-- Model of Rust `str::parse::<i64>()` (optional sign then digits; the
64-bit range check is not modelled). -/
def parseI64 (s : String) : Option ℤ :=
  match s.data with
  | [] => none
  | '-' :: rest => (parseDigits rest).map (fun n => -(n : ℤ))
  | '+' :: rest => (parseDigits rest).map (fun n => (n : ℤ))
  | cs => (parseDigits cs).map (fun n => (n : ℤ))

/-- Embedding of `safe_int`: numbers coerce with truncation toward zero,
strings are trimmed and parsed as integers, everything else is `None`. -/
def safe_int : JsonValue → Option ℤ
  | JsonValue.num q => some (ratTrunc q)
  | JsonValue.str s => parseI64 (trim_string s)
  | _ => none

/-- Embedding of the source idiom `obj.get(key).and_then(safe_int)`. -/
def getInt (fields : List (String × JsonValue)) (key : String) : Option ℤ :=
  (lookupJ fields key).bind safe_int

/-- Shared shape of the OpenAI / Anthropic / Gemini rules of
`parse_usage_tokens`: two required keys, total from an explicit key or the
sum of the two. -/
def pair_rule (fields : List (String × JsonValue)) (k1 k2 kt : String) :
    Option (Option ℤ × Option ℤ × Option ℤ) :=
  match getInt fields k1, getInt fields k2 with
  | some a, some b =>
    some (some a, some b, Option.orElse (getInt fields kt) (fun _ => some (a + b)))
  | _, _ => none

/-- OpenAI rule: `prompt_tokens` + `completion_tokens`. -/
def try_openai (fields : List (String × JsonValue)) :
    Option (Option ℤ × Option ℤ × Option ℤ) :=
  pair_rule fields "prompt_tokens" "completion_tokens" "total_tokens"

/-- Anthropic/generic rule: `input_tokens` + `output_tokens`. -/
def try_anthropic (fields : List (String × JsonValue)) :
    Option (Option ℤ × Option ℤ × Option ℤ) :=
  pair_rule fields "input_tokens" "output_tokens" "total_tokens"

/-- Google/Gemini rule: `promptTokenCount` + `candidatesTokenCount`. -/
def try_gemini (fields : List (String × JsonValue)) :
    Option (Option ℤ × Option ℤ × Option ℤ) :=
  pair_rule fields "promptTokenCount" "candidatesTokenCount" "totalTokenCount"

/-- Cohere rule: a `tokens` field alone yields the total, with optional
sibling `input_tokens` / `output_tokens`. -/
def try_cohere (fields : List (String × JsonValue)) :
    Option (Option ℤ × Option ℤ × Option ℤ) :=
  match getInt fields "tokens" with
  | some tokens =>
    some (getInt fields "input_tokens", getInt fields "output_tokens", some tokens)
  | none => none

/-- Source idiom `stats.get(k1).or_else(|| stats.get(k2)).and_then(safe_int)`. -/
def stats_field2 (stats : List (String × JsonValue)) (k1 k2 : String) : Option ℤ :=
  (Option.orElse (lookupJ stats k1) (fun _ => lookupJ stats k2)).bind safe_int

/-- Source idiom with a three-key fallback chain. -/
def stats_field3 (stats : List (String × JsonValue)) (k1 k2 k3 : String) : Option ℤ :=
  (Option.orElse (lookupJ stats k1)
    (fun _ => Option.orElse (lookupJ stats k2) (fun _ => lookupJ stats k3))).bind safe_int

/-- The `statistics` rule of `parse_usage_tokens`. -/
def statistics_rule (fields : List (String × JsonValue)) :
    Option ℤ × Option ℤ × Option ℤ :=
  match lookupJ fields "statistics" with
  | some (JsonValue.obj stats) =>
    (stats_field3 stats "input_tokens" "prompt_tokens" "tokens_in",
     stats_field3 stats "output_tokens" "completion_tokens" "tokens_out",
     stats_field2 stats "total_tokens" "tokens")
  | _ => (none, none, none)

/-- Embedding of `parse_usage_tokens`.  The source recursion (into nested
`usage` and `meta.usage` objects) is structurally terminating on the JSON
value; here it is bounded by an explicit `fuel` parameter, with exhausted
fuel returning `(None, None, None)`; for any fuel larger than the nesting
depth of the document the result agrees with the source. -/
def parse_usage_tokens : ℕ → JsonValue → Option ℤ × Option ℤ × Option ℤ
  | 0, _ => (none, none, none)
  | fuel + 1, v =>
    match v with
    | JsonValue.obj l =>
      match try_openai l with
      | some r => r
      | none =>
        match try_anthropic l with
        | some r => r
        | none =>
          match try_gemini l with
          | some r => r
          | none =>
            match try_cohere l with
            | some r => r
            | none =>
              match lookupJ l "usage" with
              | some (JsonValue.obj u) => parse_usage_tokens fuel (JsonValue.obj u)
              | _ =>
                match lookupJ l "meta" with
                | some (JsonValue.obj m) =>
                  match lookupJ m "usage" with
                  | some w => parse_usage_tokens fuel w
                  | none => statistics_rule l
                | _ => statistics_rule l
    | _ => (none, none, none)

/-- Model of the `PaymentToken` enum. -/
inductive PaymentToken where
  | SOL : PaymentToken
  | USDC : PaymentToken
deriving DecidableEq

/-- Symbol string passed to the price fetcher for each token. -/
def token_symbol : PaymentToken → String
  | PaymentToken.SOL => "SOL"
  | PaymentToken.USDC => "USDC"

/-- Decimal exponent per token, from `calculate_payment_from_usage`. -/
def token_decimals : PaymentToken → ℕ
  | PaymentToken.SOL => 9
  | PaymentToken.USDC => 6

/-- Model of the `PaymentAmounts` struct. -/
structure PaymentAmounts where
  total_amount_units : ℕ
  total_amount_token : ℚ
  fee_amount_units : ℕ
  fee_amount_token : ℚ
  agent_amount_units : ℕ
  agent_amount_token : ℚ
deriving DecidableEq

/-- Model of the Rust cast `x as u64`: truncation toward zero, saturating
at 0 for negative inputs (saturation at `u64::MAX` is not modelled). -/
def f64toU64 (q : ℚ) : ℕ := (ratFloor q).toNat

/-- Embedding of `calculate_payment_amounts`. -/
def calculate_payment_amounts (usd_cost token_price_usd : ℚ)
    (_payment_token : PaymentToken) (fee_percent : ℚ) (decimals : ℕ) :
    PaymentAmounts :=
  let total_amount_token := usd_cost / token_price_usd
  let fee_amount_token := total_amount_token * fee_percent
  let agent_amount_token := total_amount_token - fee_amount_token
  let multiplier : ℕ := 10 ^ decimals
  let total_amount_units := f64toU64 (total_amount_token * (multiplier : ℚ))
  let fee_amount_units := f64toU64 (fee_amount_token * (multiplier : ℚ))
  let agent_amount_units := total_amount_units - fee_amount_units
  { total_amount_units := total_amount_units
    total_amount_token := total_amount_token
    fee_amount_units := fee_amount_units
    fee_amount_token := fee_amount_token
    agent_amount_units := agent_amount_units
    agent_amount_token := agent_amount_token }

/-- Error cases of `TokenPriceFetcher::get_price_usd`, one constructor per
distinct error site (the source raises them as message strings). -/
inductive PriceError where
  | unknownToken (token : String) : PriceError
  | transport (msg : String) : PriceError
  | fetchFailedStatus (status : String) : PriceError
  | body (msg : String) : PriceError
  | priceNotFound (token : String) : PriceError
deriving DecidableEq

/-- Outcome of the HTTP request to the external price source, abstracting
`reqwest`: a transport-level failure of `send()` (connection error or
timeout), a completed response with a non-success status, a body that fails
JSON decoding, a decoded body without the price field, or a price. -/
inductive FetchOutcome where
  | transportErr (msg : String) : FetchOutcome
  | httpError (status : String) : FetchOutcome
  | bodyErr (msg : String) : FetchOutcome
  | missingPrice : FetchOutcome
  | price (p : ℚ) : FetchOutcome

/-- The price cache: symbol ↦ (price, unix timestamp of last fetch).
Models the `HashMap<String, (f64, u64)>`; insertion prepends and lookup
takes the first match, so a new entry overwrites an old one. -/
abbrev PriceCache : Type := List (String × ℚ × ℕ)

/-- Lookup in the price cache (models `HashMap::get`). -/
def cache_get : PriceCache → String → Option (ℚ × ℕ)
  | [], _ => none
  | (k, p, ts) :: rest, key =>
    if k = key then some (p, ts) else cache_get rest key

/-- The fetcher's TTL, set to 60 seconds in `TokenPriceFetcher::new`. -/
def cache_ttl : ℕ := 60

/-- The CoinGecko id map `[("SOL", "solana")]`. -/
def coingecko_id (token_upper : String) : Option String :=
  if token_upper = "SOL" then some "solana" else none

/-- The fetch branch of `get_price_usd` (reached on a cache miss or an
expired entry): resolve the CoinGecko id, perform the HTTP fetch, and fall
back to the cache only when the response has a non-success status. -/
def fetch_price (cache : PriceCache) (token token_upper : String) (now : ℕ)
    (fetch : FetchOutcome) : Except PriceError ℚ × PriceCache :=
  match coingecko_id token_upper with
  | none => (Except.error (PriceError.unknownToken token), cache)
  | some _ =>
    match fetch with
    | FetchOutcome.transportErr m => (Except.error (PriceError.transport m), cache)
    | FetchOutcome.httpError status =>
      match cache_get cache token_upper with
      | some (price, _) => (Except.ok price, cache)
      | none => (Except.error (PriceError.fetchFailedStatus status), cache)
    | FetchOutcome.bodyErr m => (Except.error (PriceError.body m), cache)
    | FetchOutcome.missingPrice => (Except.error (PriceError.priceNotFound token), cache)
    | FetchOutcome.price p => (Except.ok p, (token_upper, p, now) :: cache)

/-- Embedding of `TokenPriceFetcher::get_price_usd`.  The fetcher state
(cache, ttl) and clock are explicit; the network is abstracted by the
`fetch` outcome.  Returns the result and the updated cache. -/
def get_price_usd (cache : PriceCache) (ttl : ℕ) (token : String) (now : ℕ)
    (fetch : FetchOutcome) : Except PriceError ℚ × PriceCache :=
  if to_uppercase token = "USDC" then (Except.ok 1, cache)
  else
    let token_upper := to_uppercase token
    match cache_get cache token_upper with
    | some (price, timestamp) =>
      if now - timestamp < ttl then (Except.ok price, cache)
      else fetch_price cache token token_upper now fetch
    | none => fetch_price cache token token_upper now fetch

/-- Model of the `PricingInfo` struct. -/
structure PricingInfo where
  usd_cost : ℚ
  source : String
  input_tokens : Option ℤ
  output_tokens : Option ℤ
  total_tokens : Option ℤ
  input_cost_per_million_usd : ℚ
  output_cost_per_million_usd : ℚ
  input_cost_usd : ℚ
  output_cost_usd : ℚ

/-- Model of the `CalculatePaymentResponse` struct. -/
structure CalculatePaymentResponse where
  status : String
  reason : Option String
  pricing : PricingInfo
  payment_amounts : Option PaymentAmounts
  token_price_usd : Option ℚ

/-- Externally observable effects of a settlement request, used to state
which stages are reached: the price lookup (a potential network fetch),
the credential parse, and the blocking Solana network interaction. -/
inductive Effect where
  | priceLookup (symbol : String) : Effect
  | credentialParse : Effect
  | networkSend : Effect
deriving DecidableEq

/-- Error cases of the settlement path, one constructor per distinct error
site of `execute_settlement` / `send_and_confirm_split_sol_payment` (the
source raises them as message strings). -/
inductive SettleError where
  | unsupportedAsset : SettleError
  | missingPaymentAmounts : SettleError
  | invalidCredential (msg : String) : SettleError
  | zeroAmount : SettleError
  | invalidAddress (msg : String) : SettleError
  | blockhashFailure (msg : String) : SettleError
  | systemIdFailure (msg : String) : SettleError
  | relayFailure (msg : String) : SettleError
deriving DecidableEq

/-- The input-side cost term of `calculate_payment_from_usage`. -/
def input_cost_of (fuel : ℕ) (usage : JsonValue) (rate : ℚ) : ℚ :=
  (((parse_usage_tokens fuel usage).1.getD 0 : ℤ) : ℚ) / 1000000 * rate

/-- The output-side cost term of `calculate_payment_from_usage`. -/
def output_cost_of (fuel : ℕ) (usage : JsonValue) (rate : ℚ) : ℚ :=
  (((parse_usage_tokens fuel usage).2.1.getD 0 : ℤ) : ℚ) / 1000000 * rate

/-- The `usd_cost` computed by `calculate_payment_from_usage`. -/
def usd_cost_of (fuel : ℕ) (usage : JsonValue) (input_rate output_rate : ℚ) : ℚ :=
  input_cost_of fuel usage input_rate + output_cost_of fuel usage output_rate

/-- The `PricingInfo` built by `calculate_payment_from_usage`. -/
def pricing_of (fuel : ℕ) (usage : JsonValue) (input_rate output_rate : ℚ) :
    PricingInfo :=
  { usd_cost := usd_cost_of fuel usage input_rate output_rate
    source := "settlement_service_rates"
    input_tokens := (parse_usage_tokens fuel usage).1
    output_tokens := (parse_usage_tokens fuel usage).2.1
    total_tokens := (parse_usage_tokens fuel usage).2.2
    input_cost_per_million_usd := input_rate
    output_cost_per_million_usd := output_rate
    input_cost_usd := input_cost_of fuel usage input_rate
    output_cost_usd := output_cost_of fuel usage output_rate }

/-- Embedding of `calculate_payment_from_usage`.  The price fetcher state is
passed explicitly (`cache`, `now`, `fetch`); the source's
`get_price_usd(..).unwrap_or(150.0)` becomes a match on the fetch result.
The `Except` layer mirrors the source's `Result` return type; the list of
effects records whether the price lookup was reached. -/
def calculate_payment_from_usage (fuel : ℕ) (usage : JsonValue)
    (input_cost_per_million_usd output_cost_per_million_usd : ℚ)
    (payment_token : PaymentToken)
    (cache : PriceCache) (now : ℕ) (fetch : FetchOutcome)
    (fee_percent : ℚ) :
    Except SettleError CalculatePaymentResponse × List Effect :=
  if usd_cost_of fuel usage input_cost_per_million_usd output_cost_per_million_usd ≤ 0 then
    (Except.ok
      { status := "skipped"
        reason := some "zero_cost"
        pricing := pricing_of fuel usage input_cost_per_million_usd output_cost_per_million_usd
        payment_amounts := none
        token_price_usd := none }, [])
  else
    let sym := token_symbol payment_token
    let token_price_usd : ℚ :=
      match (get_price_usd cache cache_ttl sym now fetch).1 with
      | Except.ok p => p
      | Except.error _ => 150
    let payment_amounts := calculate_payment_amounts
      (usd_cost_of fuel usage input_cost_per_million_usd output_cost_per_million_usd)
      token_price_usd payment_token fee_percent (token_decimals payment_token)
    (Except.ok
      { status := "calculated"
        reason := none
        pricing := pricing_of fuel usage input_cost_per_million_usd output_cost_per_million_usd
        payment_amounts := some payment_amounts
        token_price_usd := some token_price_usd }, [Effect.priceLookup sym])

/-- A keypair is identified by its 32-byte private scalar; the ed25519
public-key derivation is abstract (see `execute_settlement`'s
`keypair_pubkey` parameter). -/
abbrev Keypair : Type := List ℕ

/-- The credential string after the external decoding step of
`parse_keypair_from_string`: a string starting with `[` is decoded by
`serde_json` into a byte vector, any other non-empty string is decoded by
`bs58`; either decoder can fail, and an empty string is rejected first.
The decoders themselves are external library calls, so the input is
modelled at the decoded level. -/
inductive CredentialBytes where
  | jsonArr (bytes : List ℕ) : CredentialBytes
  | base58 (bytes : List ℕ) : CredentialBytes
  | emptyKey : CredentialBytes
  | malformed (msg : String) : CredentialBytes

/-- Embedding of `parse_keypair_from_string`: a 32-byte credential is the
secret key itself; from a 64-byte credential only the first 32 bytes are
used; every other length is rejected. -/
def parse_keypair_from_string : CredentialBytes → Except String Keypair
  | CredentialBytes.emptyKey => Except.error "Empty private_key"
  | CredentialBytes.malformed msg => Except.error msg
  | CredentialBytes.jsonArr bytes =>
    if bytes.length = 32 then Except.ok bytes
    else if bytes.length = 64 then Except.ok (bytes.take 32)
    else Except.error "Invalid keypair length, expected 32 or 64 bytes"
  | CredentialBytes.base58 bytes =>
    if bytes.length = 32 then Except.ok bytes
    else if bytes.length = 64 then Except.ok (bytes.take 32)
    else Except.error "Invalid keypair length, expected 32 or 64 bytes"

/-- On-chain account identifier, abstract (a parsed `Pubkey`). -/
abbrev Pubkey : Type := String

/-- A recent blockhash returned by the RPC node. -/
abbrev Blockhash : Type := String

/-- Model of `solana_sdk::instruction::AccountMeta`;
`AccountMeta::new(pk, is_signer)` marks the account writable. -/
structure AccountMeta where
  pubkey : Pubkey
  is_signer : Bool
  is_writable : Bool
deriving DecidableEq

/-- Model of `solana_sdk::instruction::Instruction`; `data` is the raw
byte payload. -/
structure Instruction where
  program_id : Pubkey
  accounts : List AccountMeta
  data : List ℕ
deriving DecidableEq

/-- Little-endian bytes of `2u32`, the system-program transfer
discriminator. -/
def u32_le_bytes (n : ℕ) : List ℕ :=
  [n % 256, n / 256 % 256, n / 256 ^ 2 % 256, n / 256 ^ 3 % 256]

/-- Little-endian bytes of a `u64` amount. -/
def u64_le_bytes (n : ℕ) : List ℕ :=
  [n % 256, n / 256 % 256, n / 256 ^ 2 % 256, n / 256 ^ 3 % 256,
   n / 256 ^ 4 % 256, n / 256 ^ 5 % 256, n / 256 ^ 6 % 256, n / 256 ^ 7 % 256]

/-- Model of `AccountMeta::new(pk, is_signer)`: a writable account. -/
def account_meta_new (pk : Pubkey) (s : Bool) : AccountMeta :=
  { pubkey := pk, is_signer := s, is_writable := true }

/-- Embedding of the `create_transfer_instruction` helper nested in
`send_and_confirm_split_sol_payment`: a native system-program transfer
with the source account as the (writable) signer and the destination as a
writable non-signer. -/
def create_transfer_instruction (source dest : Pubkey) (lamports : ℕ)
    (system_program_id : Pubkey) : Instruction :=
  { program_id := system_program_id
    accounts := [account_meta_new source true, account_meta_new dest false]
    data := u32_le_bytes 2 ++ u64_le_bytes lamports }

/-- The instruction list built by `send_and_confirm_split_sol_payment`:
a treasury (fee) transfer only when the fee amount is positive, always
followed by the recipient transfer. -/
def split_payment_instructions (payer_pk treasury_pk recipient_pk : Pubkey)
    (treasury_lamports recipient_lamports : ℕ) (system_program_id : Pubkey) :
    List Instruction :=
  (if treasury_lamports > 0 then
    [create_transfer_instruction payer_pk treasury_pk treasury_lamports system_program_id]
   else [])
  ++ [create_transfer_instruction payer_pk recipient_pk recipient_lamports system_program_id]

/-- Model of `solana_sdk::message::Message` as built by
`Message::new(&instructions, Some(&payer.pubkey()))`. -/
structure SolMessage where
  instructions : List Instruction
  payer : Option Pubkey

/-- Model of the signed transaction submitted to the RPC node. -/
structure Transaction where
  message : SolMessage
  recent_blockhash : Blockhash
  signing_keys : List Keypair

/-- The base-58 string of the system program id parsed inside
`send_and_confirm_split_sol_payment`. -/
def system_program_id_str : String := "11111111111111111111111111111111"

/-- The final relay step: submit the signed transaction and surface the
node's error detail on failure. -/
def relay_step (send_tx : Transaction → Except String String)
    (transaction : Transaction) : Except SettleError String :=
  match send_tx transaction with
  | Except.error e => Except.error (SettleError.relayFailure e)
  | Except.ok signature => Except.ok signature

/-- Embedding of `send_and_confirm_split_sol_payment`.  External calls are
abstracted by oracles: `pubkey_from_str` models `Pubkey::from_str`,
`keypair_pubkey` models ed25519 public-key derivation (`payer.pubkey()`),
`get_latest_blockhash` and `send_tx` model the RPC client.  The source's
extraction of the first 32 bytes of `payer.to_bytes()` recovers exactly
the 32-byte secret our `Keypair` models, so it is the identity here. -/
def send_and_confirm_split_sol_payment
    (pubkey_from_str : String → Except String Pubkey)
    (keypair_pubkey : Keypair → Pubkey)
    (get_latest_blockhash : Except String Blockhash)
    (send_tx : Transaction → Except String String)
    (payer : Keypair)
    (treasury_pubkey_str recipient_pubkey_str : String)
    (treasury_lamports recipient_lamports : ℕ)
    (_rpc_url : String) (_skip_pf : Bool) (_commitment : String) :
    Except SettleError String :=
  if recipient_lamports = 0 then Except.error SettleError.zeroAmount
  else
    match pubkey_from_str treasury_pubkey_str with
    | Except.error e => Except.error (SettleError.invalidAddress e)
    | Except.ok treasury_pk =>
      match pubkey_from_str recipient_pubkey_str with
      | Except.error e => Except.error (SettleError.invalidAddress e)
      | Except.ok recipient_pk =>
        match get_latest_blockhash with
        | Except.error e => Except.error (SettleError.blockhashFailure e)
        | Except.ok recent_blockhash =>
          match pubkey_from_str system_program_id_str with
          | Except.error e => Except.error (SettleError.systemIdFailure e)
          | Except.ok system_program_id =>
            let instructions := split_payment_instructions
              (keypair_pubkey payer) treasury_pk recipient_pk
              treasury_lamports recipient_lamports system_program_id
            let message : SolMessage :=
              { instructions := instructions, payer := some (keypair_pubkey payer) }
            relay_step send_tx
              { message := message
                recent_blockhash := recent_blockhash
                signing_keys := [payer] }

/-- The fields of `Config` consumed by the settlement path. -/
structure Config where
  solana_rpc_url : String
  swarms_treasury_pubkey : String
  settlement_fee_percent : ℚ

/-- Model of the `TreasuryPayment` struct. -/
structure TreasuryPayment where
  pubkey : String
  amount_lamports : ℕ
  amount_sol : ℚ
  amount_usd : ℚ

/-- Model of the `RecipientPayment` struct. -/
structure RecipientPayment where
  pubkey : String
  amount_lamports : ℕ
  amount_sol : ℚ
  amount_usd : ℚ

/-- Model of the `PaymentDetails` struct. -/
structure PaymentDetails where
  total_amount_lamports : ℕ
  total_amount_sol : ℚ
  total_amount_usd : ℚ
  treasury : TreasuryPayment
  recipient : RecipientPayment

/-- Model of the `SettlePaymentResponse` struct. -/
structure SettlePaymentResponse where
  status : String
  transaction_signature : Option String
  pricing : PricingInfo
  payment : Option PaymentDetails

/-- Embedding of `execute_settlement` (the Settlement Orchestrator).
Returns the response (or error) together with the list of effects
performed, in order: the price lookup recorded by the Payment Calculator,
then `credentialParse` when `parse_keypair_from_string` is invoked, then
`networkSend` when the Settlement Executor is invoked. -/
def execute_settlement (fuel : ℕ)
    (private_key : CredentialBytes) (usage : JsonValue)
    (input_cost_per_million_usd output_cost_per_million_usd : ℚ)
    (recipient_pubkey : String) (payment_token : PaymentToken)
    (treasury_pubkey : Option String)
    (skip_pf : Bool) (commitment : String)
    (config : Config)
    (cache : PriceCache) (now : ℕ) (fetch : FetchOutcome)
    (pubkey_from_str : String → Except String Pubkey)
    (keypair_pubkey : Keypair → Pubkey)
    (get_latest_blockhash : Except String Blockhash)
    (send_tx : Transaction → Except String String) :
    Except SettleError SettlePaymentResponse × List Effect :=
  match calculate_payment_from_usage fuel usage
      input_cost_per_million_usd output_cost_per_million_usd
      payment_token cache now fetch config.settlement_fee_percent with
  | (Except.error e, effects) => (Except.error e, effects)
  | (Except.ok payment_calc, effects) =>
    if payment_calc.status = "skipped" then
      (Except.ok
        { status := "skipped"
          transaction_signature := none
          pricing := payment_calc.pricing
          payment := none }, effects)
    else if payment_token ≠ PaymentToken.SOL then
      (Except.error SettleError.unsupportedAsset, effects)
    else
      match payment_calc.payment_amounts with
      | none => (Except.error SettleError.missingPaymentAmounts, effects)
      | some payment_amounts =>
        match parse_keypair_from_string private_key with
        | Except.error e =>
          (Except.error (SettleError.invalidCredential e),
           effects ++ [Effect.credentialParse])
        | Except.ok payer =>
          let treasury_pubkey_str :=
            treasury_pubkey.getD config.swarms_treasury_pubkey
          match send_and_confirm_split_sol_payment pubkey_from_str
              keypair_pubkey get_latest_blockhash send_tx payer
              treasury_pubkey_str recipient_pubkey
              payment_amounts.fee_amount_units payment_amounts.agent_amount_units
              config.solana_rpc_url skip_pf commitment with
          | Except.error e =>
            (Except.error e, effects ++ [Effect.credentialParse, Effect.networkSend])
          | Except.ok tx_sig =>
            (Except.ok
              { status := "paid"
                transaction_signature := some tx_sig
                pricing := payment_calc.pricing
                payment := some
                  { total_amount_lamports := payment_amounts.total_amount_units
                    total_amount_sol := payment_amounts.total_amount_token
                    total_amount_usd := payment_calc.pricing.usd_cost
                    treasury :=
                      { pubkey := treasury_pubkey_str
                        amount_lamports := payment_amounts.fee_amount_units
                        amount_sol := payment_amounts.fee_amount_token
                        amount_usd := payment_calc.pricing.usd_cost
                          * config.settlement_fee_percent }
                    recipient :=
                      { pubkey := recipient_pubkey
                        amount_lamports := payment_amounts.agent_amount_units
                        amount_sol := payment_amounts.agent_amount_token
                        amount_usd := payment_calc.pricing.usd_cost
                          * (1 - config.settlement_fee_percent) } } },
             effects ++ [Effect.credentialParse, Effect.networkSend])

theorem ratFloor_eq (q : ℚ) : ratFloor q = ⌊q⌋ := Rat.floor_def.symm

theorem ratCeil_eq (q : ℚ) : ratCeil q = ⌈q⌉ := by
  rw [ratCeil, ratFloor_eq, Int.floor_neg, neg_neg]

theorem f64toU64_mono {a b : ℚ} (h : a ≤ b) : f64toU64 a ≤ f64toU64 b := by
  unfold f64toU64
  rw [ratFloor_eq, ratFloor_eq]
  exact Int.toNat_le_toNat (Int.floor_le_floor h)

theorem f64toU64_eq_floor {q : ℚ} (h : 0 ≤ q) : (f64toU64 q : ℤ) = ⌊q⌋ := by
  unfold f64toU64
  rw [ratFloor_eq]
  exact Int.toNat_of_nonneg (Int.floor_nonneg.mpr h)

/-- C1: for every positive `usd_cost`, positive `token_price_usd`, fee
fraction `0 ≤ f < 1` and decimal exponent, the `PaymentAmounts` produced by
`calculate_payment_amounts` satisfy
`fee_amount_units + agent_amount_units = total_amount_units`: the split
never loses or creates smallest-denomination units. -/
theorem payment_split_preserves_units (usd_cost token_price_usd fee_percent : ℚ)
    (payment_token : PaymentToken) (decimals : ℕ)
    (husd : 0 < usd_cost) (hprice : 0 < token_price_usd)
    (hf0 : 0 ≤ fee_percent) (hf1 : fee_percent < 1) :
    (calculate_payment_amounts usd_cost token_price_usd payment_token
        fee_percent decimals).fee_amount_units
      + (calculate_payment_amounts usd_cost token_price_usd payment_token
        fee_percent decimals).agent_amount_units
      = (calculate_payment_amounts usd_cost token_price_usd payment_token
        fee_percent decimals).total_amount_units := by
  have ht : (0 : ℚ) < usd_cost / token_price_usd := div_pos husd hprice
  have hfee_le : usd_cost / token_price_usd * fee_percent ≤ usd_cost / token_price_usd :=
    mul_le_of_le_one_right ht.le hf1.le
  have hmul : usd_cost / token_price_usd * fee_percent * ((10 ^ decimals : ℕ) : ℚ)
      ≤ usd_cost / token_price_usd * ((10 ^ decimals : ℕ) : ℚ) :=
    mul_le_mul_of_nonneg_right hfee_le (Nat.cast_nonneg _)
  have hle := f64toU64_mono hmul
  simp only [calculate_payment_amounts]
  omega

/-- Witness for `payment_split_preserves_units` at
`usd_cost = 1`, `token_price_usd = 2`, `fee = 1/20`, 9 decimals. -/
theorem payment_split_preserves_units_witness :
    (0 : ℚ) < 1 ∧ (0 : ℚ) < 2 ∧ (0 : ℚ) ≤ 1/20 ∧ (1/20 : ℚ) < 1 ∧
    (calculate_payment_amounts 1 2 PaymentToken.SOL (1/20) 9).fee_amount_units
      + (calculate_payment_amounts 1 2 PaymentToken.SOL (1/20) 9).agent_amount_units
      = (calculate_payment_amounts 1 2 PaymentToken.SOL (1/20) 9).total_amount_units :=
  ⟨by decide, by decide, by decide, by decide,
   payment_split_preserves_units 1 2 (1/20) PaymentToken.SOL 9
     (by decide) (by decide) (by decide) (by decide)⟩

/-- C2, counterexample: at `usd_cost = 39 / 10^10`, `token_price_usd = 1`,
`fee_fraction = 9/10` and 9 decimals (all satisfying the claim's
hypotheses), the fee computed by `calculate_payment_amounts` is 3,
whereas `floor(total_smallest * fee_fraction) = floor(3 * 9/10) = 2`:
the code floors the fee before the total is truncated to integer units,
not after. -/
theorem fee_floor_of_total_units_counterexample :
    (calculate_payment_amounts (39/10^10) 1 PaymentToken.SOL (9/10) 9).fee_amount_units
      ≠ (⌊(((calculate_payment_amounts (39/10^10) 1 PaymentToken.SOL
          (9/10) 9).total_amount_units : ℕ) : ℚ) * (9/10)⌋).toNat := by
  rw [← ratFloor_eq]
  decide

/-- C2, amended: `calculate_payment_amounts` computes the integer fee as
`fee_smallest = floor(total_token * fee_fraction * 10^decimals)` — the
floor of the fee in token terms scaled by the decimal exponent, where
`total_token = usd_cost / token_price_usd` — and the payee amount as the
remainder `agent_smallest = total_smallest - fee_smallest`, with
`total_smallest = floor(total_token * 10^decimals)`. -/
theorem payment_amounts_formulas (usd_cost token_price_usd fee_percent : ℚ)
    (payment_token : PaymentToken) (decimals : ℕ)
    (husd : 0 < usd_cost) (hprice : 0 < token_price_usd)
    (hf0 : 0 ≤ fee_percent) (hf1 : fee_percent < 1) :
    ((calculate_payment_amounts usd_cost token_price_usd payment_token
        fee_percent decimals).fee_amount_units : ℤ)
      = ⌊usd_cost / token_price_usd * fee_percent * ((10 ^ decimals : ℕ) : ℚ)⌋
    ∧ ((calculate_payment_amounts usd_cost token_price_usd payment_token
        fee_percent decimals).total_amount_units : ℤ)
      = ⌊usd_cost / token_price_usd * ((10 ^ decimals : ℕ) : ℚ)⌋
    ∧ (calculate_payment_amounts usd_cost token_price_usd payment_token
        fee_percent decimals).agent_amount_units
      = (calculate_payment_amounts usd_cost token_price_usd payment_token
          fee_percent decimals).total_amount_units
        - (calculate_payment_amounts usd_cost token_price_usd payment_token
          fee_percent decimals).fee_amount_units := by
  have ht : (0 : ℚ) ≤ usd_cost / token_price_usd := (div_pos husd hprice).le
  refine ⟨?_, ?_, rfl⟩
  · exact f64toU64_eq_floor
      (mul_nonneg (mul_nonneg ht hf0) (Nat.cast_nonneg _))
  · exact f64toU64_eq_floor (mul_nonneg ht (Nat.cast_nonneg _))

/-- Witness for `payment_amounts_formulas` at the counterexample's input:
the fee is `floor(3.51) = 3`, not `floor(3 * 9/10) = 2`. -/
theorem payment_amounts_formulas_witness :
    ((calculate_payment_amounts (39/10^10) 1 PaymentToken.SOL (9/10) 9).fee_amount_units : ℤ)
      = ⌊(39/10^10 : ℚ) / 1 * (9/10) * ((10 ^ 9 : ℕ) : ℚ)⌋
    ∧ ((calculate_payment_amounts (39/10^10) 1 PaymentToken.SOL (9/10) 9).total_amount_units : ℤ)
      = ⌊(39/10^10 : ℚ) / 1 * ((10 ^ 9 : ℕ) : ℚ)⌋
    ∧ (calculate_payment_amounts (39/10^10) 1 PaymentToken.SOL (9/10) 9).agent_amount_units
      = (calculate_payment_amounts (39/10^10) 1 PaymentToken.SOL (9/10) 9).total_amount_units
        - (calculate_payment_amounts (39/10^10) 1 PaymentToken.SOL (9/10) 9).fee_amount_units :=
  payment_amounts_formulas (39/10^10) 1 (9/10) PaymentToken.SOL 9
    (by decide) (by decide) (by decide) (by decide)

/-- C4, counterexample: the cache holds a (stale) value 100 for `SOL`
(entry timestamp 0, clock at 1000, TTL 60), the network price fetch fails
at the transport level (`send()` returns an error, e.g. a timeout), and
`get_price_usd` propagates the error instead of returning the cached
value: the stale-cache fallback is only applied to responses with a
non-success HTTP status, because the `?` on `send()` returns early. -/
theorem price_fetch_failure_counterexample :
    cache_get [("SOL", (100 : ℚ), 0)] (to_uppercase "SOL") = some (100, 0)
    ∧ (get_price_usd [("SOL", (100 : ℚ), 0)] 60 "SOL" 1000
        (FetchOutcome.transportErr "connection timed out")).1
      = Except.error (PriceError.transport "connection timed out") :=
  ⟨rfl, rfl⟩

/-- C4, amended: for a symbol mapping to `SOL` whose cache entry is absent
or expired, when the fetch completes with a non-success HTTP status,
`get_price_usd` returns the last cached value for that symbol if one
exists (regardless of its age) and fails only when no cached value exists;
a transport-level fetch failure (connection error or timeout), a response
body that fails to decode, and a decoded body without the price field
instead all propagate as errors even when a cached value exists. -/
theorem price_stale_fallback_on_http_status (cache : PriceCache) (ttl : ℕ)
    (token : String) (now : ℕ)
    (htok : to_uppercase token = "SOL")
    (hstale : ∀ p ts, cache_get cache (to_uppercase token) = some (p, ts) →
      ttl ≤ now - ts) :
    (∀ status p ts, cache_get cache (to_uppercase token) = some (p, ts) →
      get_price_usd cache ttl token now (FetchOutcome.httpError status)
        = (Except.ok p, cache))
    ∧ (∀ status, cache_get cache (to_uppercase token) = none →
      get_price_usd cache ttl token now (FetchOutcome.httpError status)
        = (Except.error (PriceError.fetchFailedStatus status), cache))
    ∧ (∀ msg p ts, cache_get cache (to_uppercase token) = some (p, ts) →
      get_price_usd cache ttl token now (FetchOutcome.transportErr msg)
        = (Except.error (PriceError.transport msg), cache))
    ∧ (∀ msg p ts, cache_get cache (to_uppercase token) = some (p, ts) →
      get_price_usd cache ttl token now (FetchOutcome.bodyErr msg)
        = (Except.error (PriceError.body msg), cache))
    ∧ (∀ p ts, cache_get cache (to_uppercase token) = some (p, ts) →
      get_price_usd cache ttl token now FetchOutcome.missingPrice
        = (Except.error (PriceError.priceNotFound token), cache)) := by
  have hne : ¬ to_uppercase token = "USDC" := by rw [htok]; decide
  refine ⟨?_, ?_, ?_, ?_, ?_⟩
  · intro status p ts hc
    have hexp : ¬ now - ts < ttl := by
      have := hstale p ts hc
      omega
    rw [get_price_usd, if_neg hne]
    rw [htok] at hc
    simp only [htok, hc, if_neg hexp]
    rw [fetch_price]
    simp [coingecko_id, hc]
  · intro status hc
    rw [get_price_usd, if_neg hne]
    rw [htok] at hc
    simp only [htok, hc]
    rw [fetch_price]
    simp [coingecko_id, hc]
  · intro msg p ts hc
    have hexp : ¬ now - ts < ttl := by
      have := hstale p ts hc
      omega
    rw [get_price_usd, if_neg hne]
    rw [htok] at hc
    simp only [htok, hc, if_neg hexp]
    rw [fetch_price]
    simp [coingecko_id]
  · intro msg p ts hc
    have hexp : ¬ now - ts < ttl := by
      have := hstale p ts hc
      omega
    rw [get_price_usd, if_neg hne]
    rw [htok] at hc
    simp only [htok, hc, if_neg hexp]
    rw [fetch_price]
    simp [coingecko_id]
  · intro p ts hc
    have hexp : ¬ now - ts < ttl := by
      have := hstale p ts hc
      omega
    rw [get_price_usd, if_neg hne]
    rw [htok] at hc
    simp only [htok, hc, if_neg hexp]
    rw [fetch_price]
    simp [coingecko_id]

/-- Witness for `price_stale_fallback_on_http_status`: with a stale cached
price 100 for `SOL`, an HTTP 500 response falls back to the cached value,
while a transport failure, a body-decode failure and a missing price field
each propagate as errors. -/
theorem price_stale_fallback_on_http_status_witness :
    get_price_usd [("SOL", (100 : ℚ), 0)] 60 "SOL" 1000 (FetchOutcome.httpError "500")
      = (Except.ok 100, [("SOL", (100 : ℚ), 0)])
    ∧ get_price_usd [("SOL", (100 : ℚ), 0)] 60 "SOL" 1000 (FetchOutcome.transportErr "timeout")
      = (Except.error (PriceError.transport "timeout"), [("SOL", (100 : ℚ), 0)])
    ∧ get_price_usd [("SOL", (100 : ℚ), 0)] 60 "SOL" 1000 (FetchOutcome.bodyErr "bad json")
      = (Except.error (PriceError.body "bad json"), [("SOL", (100 : ℚ), 0)])
    ∧ get_price_usd [("SOL", (100 : ℚ), 0)] 60 "SOL" 1000 FetchOutcome.missingPrice
      = (Except.error (PriceError.priceNotFound "SOL"), [("SOL", (100 : ℚ), 0)]) := by
  have hstale : ∀ (p : ℚ) (ts : ℕ),
      cache_get [("SOL", (100 : ℚ), 0)] (to_uppercase "SOL") = some (p, ts) →
      60 ≤ 1000 - ts := by
    intro p ts h
    have h2 : ((100 : ℚ), (0 : ℕ)) = (p, ts) := Option.some.inj h
    cases h2
    decide
  exact ⟨(price_stale_fallback_on_http_status [("SOL", 100, 0)] 60 "SOL" 1000 rfl
      hstale).1 "500" 100 0 rfl,
    (price_stale_fallback_on_http_status [("SOL", 100, 0)] 60 "SOL" 1000 rfl
      hstale).2.2.1 "timeout" 100 0 rfl,
    (price_stale_fallback_on_http_status [("SOL", 100, 0)] 60 "SOL" 1000 rfl
      hstale).2.2.2.1 "bad json" 100 0 rfl,
    (price_stale_fallback_on_http_status [("SOL", 100, 0)] 60 "SOL" 1000 rfl
      hstale).2.2.2.2 100 0 rfl⟩

/-- C9: for every usage document, rates, payment token and price-fetcher
state — including any failing price lookup — `calculate_payment_from_usage`
completes with `Ok` and never returns an error; when the price lookup
fails (and the cost is positive, so the lookup is reached), the fallback
default price 150 is used. -/
theorem calculate_payment_never_fails (fuel : ℕ) (usage : JsonValue)
    (input_rate output_rate : ℚ) (payment_token : PaymentToken)
    (cache : PriceCache) (now : ℕ) (fetch : FetchOutcome) (fee_percent : ℚ) :
    (∃ r effects, calculate_payment_from_usage fuel usage input_rate output_rate
        payment_token cache now fetch fee_percent = (Except.ok r, effects))
    ∧ (∀ e, 0 < usd_cost_of fuel usage input_rate output_rate →
        (get_price_usd cache cache_ttl (token_symbol payment_token) now fetch).1
          = Except.error e →
        ∃ r effects, calculate_payment_from_usage fuel usage input_rate output_rate
            payment_token cache now fetch fee_percent = (Except.ok r, effects)
          ∧ r.token_price_usd = some 150) := by
  by_cases h : usd_cost_of fuel usage input_rate output_rate ≤ 0
  · constructor
    · exact ⟨_, _, by rw [calculate_payment_from_usage, if_pos h]⟩
    · intro e h0 _
      exact absurd h (not_le.mpr h0)
  · constructor
    · exact ⟨_, _, by rw [calculate_payment_from_usage, if_neg h]⟩
    · intro e h0 herr
      refine ⟨_, _, by rw [calculate_payment_from_usage, if_neg h], ?_⟩
      simp only [herr]

/-- Witness for `calculate_payment_never_fails`: a document with 100 input
and 50 output units at rates 5/2 and 10 per million has positive cost
3/4000; with an empty cache and a transport failure the calculation still
succeeds, using the fallback price 150. -/
theorem calculate_payment_never_fails_witness :
    ∃ r effects,
      calculate_payment_from_usage 1
          (JsonValue.obj [("prompt_tokens", JsonValue.num 100),
            ("completion_tokens", JsonValue.num 50)])
          (5/2) 10 PaymentToken.SOL [] 0 (FetchOutcome.transportErr "x") (1/20)
        = (Except.ok r, effects)
      ∧ r.token_price_usd = some 150 :=
  (calculate_payment_never_fails 1
      (JsonValue.obj [("prompt_tokens", JsonValue.num 100),
        ("completion_tokens", JsonValue.num 50)])
      (5/2) 10 PaymentToken.SOL [] 0 (FetchOutcome.transportErr "x") (1/20)).2
    (PriceError.transport "x") (by decide) rfl

/-- C3: whenever the computed `usd_cost` is zero or negative,
`execute_settlement` returns the skipped outcome as an `Ok` result (not an
error) and performs no effect at all — no price lookup, no credential
parsing and no network call — for every credential, every oracle and every
cache state: the Settlement Executor is never reached. -/
theorem settlement_skipped_short_circuit (fuel : ℕ)
    (private_key : CredentialBytes) (usage : JsonValue)
    (input_rate output_rate : ℚ) (recipient_pubkey : String)
    (payment_token : PaymentToken) (treasury_pubkey : Option String)
    (skip_pf : Bool) (commitment : String) (config : Config)
    (cache : PriceCache) (now : ℕ) (fetch : FetchOutcome)
    (pubkey_from_str : String → Except String Pubkey)
    (keypair_pubkey : Keypair → Pubkey)
    (get_latest_blockhash : Except String Blockhash)
    (send_tx : Transaction → Except String String)
    (h : usd_cost_of fuel usage input_rate output_rate ≤ 0) :
    execute_settlement fuel private_key usage input_rate output_rate
        recipient_pubkey payment_token treasury_pubkey skip_pf commitment
        config cache now fetch pubkey_from_str keypair_pubkey
        get_latest_blockhash send_tx
      = (Except.ok
          { status := "skipped"
            transaction_signature := none
            pricing := pricing_of fuel usage input_rate output_rate
            payment := none }, []) := by
  rw [execute_settlement, calculate_payment_from_usage, if_pos h]
  simp

/-- Witness for `settlement_skipped_short_circuit`: an unparsable usage
document gives cost 0; the settlement is skipped without any effect even
though all oracles are primed to succeed. -/
theorem settlement_skipped_short_circuit_witness :
    execute_settlement 1 CredentialBytes.emptyKey (JsonValue.obj [])
        (5/2) 10 "Recipient" PaymentToken.SOL none false "confirmed"
        { solana_rpc_url := "url", swarms_treasury_pubkey := "Treasury",
          settlement_fee_percent := 1/20 }
        [] 0 (FetchOutcome.price 150) (fun s => Except.ok s) (fun _ => "PayerPk")
        (Except.ok "Blockhash") (fun _ => Except.ok "Signature")
      = (Except.ok
          { status := "skipped"
            transaction_signature := none
            pricing := pricing_of 1 (JsonValue.obj []) (5/2) 10
            payment := none }, []) :=
  settlement_skipped_short_circuit 1 CredentialBytes.emptyKey (JsonValue.obj [])
    (5/2) 10 "Recipient" PaymentToken.SOL none false "confirmed"
    { solana_rpc_url := "url", swarms_treasury_pubkey := "Treasury",
      settlement_fee_percent := 1/20 }
    [] 0 (FetchOutcome.price 150) (fun s => Except.ok s) (fun _ => "PayerPk")
    (Except.ok "Blockhash") (fun _ => Except.ok "Signature") (by decide)

/-- C10: for a settlement request in the non-`SOL` payment token (`USDC`)
whose computed `usd_cost` is zero or negative, `execute_settlement`
returns the skipped outcome, not the `UnsupportedAsset` error: the
zero-cost short-circuit is evaluated before the supported-asset check. -/
theorem skip_check_precedes_asset_check (fuel : ℕ)
    (private_key : CredentialBytes) (usage : JsonValue)
    (input_rate output_rate : ℚ) (recipient_pubkey : String)
    (treasury_pubkey : Option String)
    (skip_pf : Bool) (commitment : String) (config : Config)
    (cache : PriceCache) (now : ℕ) (fetch : FetchOutcome)
    (pubkey_from_str : String → Except String Pubkey)
    (keypair_pubkey : Keypair → Pubkey)
    (get_latest_blockhash : Except String Blockhash)
    (send_tx : Transaction → Except String String)
    (h : usd_cost_of fuel usage input_rate output_rate ≤ 0) :
    execute_settlement fuel private_key usage input_rate output_rate
        recipient_pubkey PaymentToken.USDC treasury_pubkey skip_pf commitment
        config cache now fetch pubkey_from_str keypair_pubkey
        get_latest_blockhash send_tx
      = (Except.ok
          { status := "skipped"
            transaction_signature := none
            pricing := pricing_of fuel usage input_rate output_rate
            payment := none }, [])
    ∧ (execute_settlement fuel private_key usage input_rate output_rate
        recipient_pubkey PaymentToken.USDC treasury_pubkey skip_pf commitment
        config cache now fetch pubkey_from_str keypair_pubkey
        get_latest_blockhash send_tx).1
      ≠ Except.error SettleError.unsupportedAsset := by
  constructor
  · rw [execute_settlement, calculate_payment_from_usage, if_pos h]
    simp
  · rw [execute_settlement, calculate_payment_from_usage, if_pos h]
    simp

/-- Witness for `skip_check_precedes_asset_check` with a `USDC` request of
zero cost. -/
theorem skip_check_precedes_asset_check_witness :
    execute_settlement 1 CredentialBytes.emptyKey (JsonValue.obj [])
        (5/2) 10 "Recipient" PaymentToken.USDC none false "confirmed"
        { solana_rpc_url := "url", swarms_treasury_pubkey := "Treasury",
          settlement_fee_percent := 1/20 }
        [] 0 (FetchOutcome.price 1) (fun s => Except.ok s) (fun _ => "PayerPk")
        (Except.ok "Blockhash") (fun _ => Except.ok "Signature")
      = (Except.ok
          { status := "skipped"
            transaction_signature := none
            pricing := pricing_of 1 (JsonValue.obj []) (5/2) 10
            payment := none }, [])
    ∧ (execute_settlement 1 CredentialBytes.emptyKey (JsonValue.obj [])
        (5/2) 10 "Recipient" PaymentToken.USDC none false "confirmed"
        { solana_rpc_url := "url", swarms_treasury_pubkey := "Treasury",
          settlement_fee_percent := 1/20 }
        [] 0 (FetchOutcome.price 1) (fun s => Except.ok s) (fun _ => "PayerPk")
        (Except.ok "Blockhash") (fun _ => Except.ok "Signature")).1
      ≠ Except.error SettleError.unsupportedAsset :=
  skip_check_precedes_asset_check 1 CredentialBytes.emptyKey (JsonValue.obj [])
    (5/2) 10 "Recipient" none false "confirmed"
    { solana_rpc_url := "url", swarms_treasury_pubkey := "Treasury",
      settlement_fee_percent := 1/20 }
    [] 0 (FetchOutcome.price 1) (fun s => Except.ok s) (fun _ => "PayerPk")
    (Except.ok "Blockhash") (fun _ => Except.ok "Signature") (by decide)

theorem send_ne_zero_amount
    (pubkey_from_str : String → Except String Pubkey)
    (keypair_pubkey : Keypair → Pubkey)
    (get_latest_blockhash : Except String Blockhash)
    (send_tx : Transaction → Except String String)
    (payer : Keypair) (treasury_str recipient_str : String)
    (treasury_lamports recipient_lamports : ℕ)
    (rpc_url : String) (skip_pf : Bool) (commitment : String)
    (hrl : recipient_lamports ≠ 0) :
    send_and_confirm_split_sol_payment pubkey_from_str keypair_pubkey
        get_latest_blockhash send_tx payer treasury_str recipient_str
        treasury_lamports recipient_lamports rpc_url skip_pf commitment
      ≠ Except.error SettleError.zeroAmount := by
  rw [send_and_confirm_split_sol_payment, if_neg hrl]
  split
  · simp
  · split
    · simp
    · split
      · simp
      · split
        · simp
        · unfold relay_step
          dsimp only
          split <;> simp

/-- C5: `send_and_confirm_split_sol_payment` fails with the `ZeroAmount`
error exactly when the recipient (payee) amount is zero, for every
credential, address and network oracle; and a zero fee amount does not
cause a failure: with valid addresses, a working node and a positive
recipient amount, a zero-fee settlement succeeds. -/
theorem zero_amount_iff_zero_recipient
    (pubkey_from_str : String → Except String Pubkey)
    (keypair_pubkey : Keypair → Pubkey)
    (get_latest_blockhash : Except String Blockhash)
    (send_tx : Transaction → Except String String)
    (payer : Keypair) (treasury_str recipient_str : String)
    (treasury_lamports recipient_lamports : ℕ)
    (rpc_url : String) (skip_pf : Bool) (commitment : String) :
    (send_and_confirm_split_sol_payment pubkey_from_str keypair_pubkey
        get_latest_blockhash send_tx payer treasury_str recipient_str
        treasury_lamports recipient_lamports rpc_url skip_pf commitment
      = Except.error SettleError.zeroAmount ↔ recipient_lamports = 0)
    ∧ (∀ tp rp bh sys,
        pubkey_from_str treasury_str = Except.ok tp →
        pubkey_from_str recipient_str = Except.ok rp →
        get_latest_blockhash = Except.ok bh →
        pubkey_from_str system_program_id_str = Except.ok sys →
        0 < recipient_lamports →
        (∀ tx, ∃ s, send_tx tx = Except.ok s) →
        ∃ s, send_and_confirm_split_sol_payment pubkey_from_str keypair_pubkey
            get_latest_blockhash send_tx payer treasury_str recipient_str
            0 recipient_lamports rpc_url skip_pf commitment = Except.ok s) := by
  constructor
  · constructor
    · intro heq
      by_contra hrl
      exact send_ne_zero_amount pubkey_from_str keypair_pubkey
        get_latest_blockhash send_tx payer treasury_str recipient_str
        treasury_lamports recipient_lamports rpc_url skip_pf commitment hrl heq
    · intro hrl
      rw [send_and_confirm_split_sol_payment, if_pos hrl]
  · intro tp rp bh sys h1 h2 h3 h4 hrl hst
    rw [send_and_confirm_split_sol_payment,
      if_neg (Nat.pos_iff_ne_zero.mp hrl), h1, h2, h3, h4]
    unfold relay_step
    dsimp only
    obtain ⟨s, hs⟩ := hst _
    rw [hs]
    exact ⟨s, rfl⟩

/-- Witness for `zero_amount_iff_zero_recipient`: with recipient amount 5
the result is not `ZeroAmount`, and with fee 0 and cooperative oracles the
settlement succeeds. -/
theorem zero_amount_iff_zero_recipient_witness :
    (send_and_confirm_split_sol_payment (fun s => Except.ok s) (fun _ => "PayerPk")
        (Except.ok "Blockhash") (fun _ => Except.ok "Signature")
        (List.replicate 32 0) "Treasury" "Recipient" 7 5 "url" false "confirmed"
      = Except.error SettleError.zeroAmount ↔ (5 : ℕ) = 0)
    ∧ (∃ s, send_and_confirm_split_sol_payment (fun s => Except.ok s) (fun _ => "PayerPk")
        (Except.ok "Blockhash") (fun _ => Except.ok "Signature")
        (List.replicate 32 0) "Treasury" "Recipient" 0 5 "url" false "confirmed"
      = Except.ok s) :=
  ⟨(zero_amount_iff_zero_recipient (fun s => Except.ok s) (fun _ => "PayerPk")
      (Except.ok "Blockhash") (fun _ => Except.ok "Signature")
      (List.replicate 32 0) "Treasury" "Recipient" 7 5 "url" false "confirmed").1,
   (zero_amount_iff_zero_recipient (fun s => Except.ok s) (fun _ => "PayerPk")
      (Except.ok "Blockhash") (fun _ => Except.ok "Signature")
      (List.replicate 32 0) "Treasury" "Recipient" 7 5 "url" false "confirmed").2
     "Treasury" "Recipient" "Blockhash" system_program_id_str
     rfl rfl rfl rfl (by decide) (fun tx => ⟨"Signature", rfl⟩)⟩

/-- C6: with a positive recipient amount and valid inputs, the transaction
submitted by `send_and_confirm_split_sol_payment` carries exactly the
instruction list `split_payment_instructions`: a single transfer to the
payee when the fee is zero, and the fee transfer followed by the payee
transfer when the fee is positive — each instruction a native transfer
whose first (source) account is the signer's own account. -/
theorem transaction_instruction_shape
    (pubkey_from_str : String → Except String Pubkey)
    (keypair_pubkey : Keypair → Pubkey)
    (get_latest_blockhash : Except String Blockhash)
    (send_tx : Transaction → Except String String)
    (payer : Keypair) (treasury_str recipient_str : String)
    (treasury_lamports recipient_lamports : ℕ)
    (rpc_url : String) (skip_pf : Bool) (commitment : String)
    (tp rp sys : Pubkey) (bh : Blockhash)
    (h1 : pubkey_from_str treasury_str = Except.ok tp)
    (h2 : pubkey_from_str recipient_str = Except.ok rp)
    (h3 : get_latest_blockhash = Except.ok bh)
    (h4 : pubkey_from_str system_program_id_str = Except.ok sys)
    (hrl : 0 < recipient_lamports) :
    send_and_confirm_split_sol_payment pubkey_from_str keypair_pubkey
        get_latest_blockhash send_tx payer treasury_str recipient_str
        treasury_lamports recipient_lamports rpc_url skip_pf commitment
      = relay_step send_tx
          { message :=
              { instructions := (split_payment_instructions (keypair_pubkey payer)
                  tp rp treasury_lamports recipient_lamports sys),
                payer := some (keypair_pubkey payer) },
            recent_blockhash := bh,
            signing_keys := [payer] }
    ∧ (treasury_lamports = 0 →
        split_payment_instructions (keypair_pubkey payer) tp rp
            treasury_lamports recipient_lamports sys
          = [create_transfer_instruction (keypair_pubkey payer) rp
              recipient_lamports sys])
    ∧ (0 < treasury_lamports →
        split_payment_instructions (keypair_pubkey payer) tp rp
            treasury_lamports recipient_lamports sys
          = [create_transfer_instruction (keypair_pubkey payer) tp
              treasury_lamports sys,
             create_transfer_instruction (keypair_pubkey payer) rp
              recipient_lamports sys])
    ∧ (∀ i ∈ split_payment_instructions (keypair_pubkey payer) tp rp
          treasury_lamports recipient_lamports sys,
        i.accounts.head? = some (account_meta_new (keypair_pubkey payer) true)) := by
  refine ⟨?_, ?_, ?_, ?_⟩
  · rw [send_and_confirm_split_sol_payment,
      if_neg (Nat.pos_iff_ne_zero.mp hrl), h1, h2, h3, h4]
  · intro h0
    rw [h0, split_payment_instructions]
    simp
  · intro h0
    rw [split_payment_instructions, if_pos h0]
    simp
  · intro i hi
    rw [split_payment_instructions] at hi
    by_cases h0 : treasury_lamports > 0
    · rw [if_pos h0] at hi
      have h : i = create_transfer_instruction (keypair_pubkey payer) tp
            treasury_lamports sys
          ∨ i = create_transfer_instruction (keypair_pubkey payer) rp
            recipient_lamports sys := by simpa using hi
      rcases h with h | h <;> (rw [h]; rfl)
    · rw [if_neg h0] at hi
      have h : i = create_transfer_instruction (keypair_pubkey payer) rp
          recipient_lamports sys := by simpa using hi
      rw [h]; rfl

/-- Witness for `transaction_instruction_shape` with fee 3 and recipient
amount 5 and cooperative oracles. -/
theorem transaction_instruction_shape_witness :
    send_and_confirm_split_sol_payment (fun s => Except.ok s) (fun _ => "PayerPk")
        (Except.ok "Blockhash") (fun _ => Except.ok "Signature")
        (List.replicate 32 0) "Treasury" "Recipient" 3 5 "url" false "confirmed"
      = relay_step (fun _ => Except.ok "Signature")
          { message :=
              { instructions := (split_payment_instructions "PayerPk"
                  "Treasury" "Recipient" 3 5 system_program_id_str),
                payer := some "PayerPk" },
            recent_blockhash := "Blockhash",
            signing_keys := [List.replicate 32 0] }
    ∧ ((3 : ℕ) = 0 →
        split_payment_instructions "PayerPk" "Treasury" "Recipient" 3 5 system_program_id_str
          = [create_transfer_instruction "PayerPk" "Recipient" 5 system_program_id_str])
    ∧ ((0 : ℕ) < 3 →
        split_payment_instructions "PayerPk" "Treasury" "Recipient" 3 5 system_program_id_str
          = [create_transfer_instruction "PayerPk" "Treasury" 3 system_program_id_str,
             create_transfer_instruction "PayerPk" "Recipient" 5 system_program_id_str])
    ∧ (∀ i ∈ split_payment_instructions "PayerPk" "Treasury" "Recipient" 3 5
          system_program_id_str,
        i.accounts.head? = some (account_meta_new "PayerPk" true)) :=
  transaction_instruction_shape (fun s => Except.ok s) (fun _ => "PayerPk")
    (Except.ok "Blockhash") (fun _ => Except.ok "Signature")
    (List.replicate 32 0) "Treasury" "Recipient" 3 5 "url" false "confirmed"
    "Treasury" "Recipient" system_program_id_str "Blockhash"
    rfl rfl rfl rfl (by decide)

/-- C7: a 64-byte credential and a 32-byte credential sharing the same
leading 32 bytes parse to the same keypair — only the first 32 bytes (the
private scalar) of a 64-byte credential are used — hence to the same
derived public address under any derivation function; this holds both for
the JSON-array form and for the base-58 form. -/
theorem keypair_prefix_equiv (k r : List ℕ) (derive : Keypair → Pubkey)
    (hk : k.length = 32) (hr : r.length = 32) :
    (parse_keypair_from_string (CredentialBytes.jsonArr (k ++ r))).map derive
      = (parse_keypair_from_string (CredentialBytes.jsonArr k)).map derive
    ∧ (parse_keypair_from_string (CredentialBytes.base58 (k ++ r))).map derive
      = (parse_keypair_from_string (CredentialBytes.base58 k)).map derive := by
  have hlen : (k ++ r).length = 64 := by rw [List.length_append, hk, hr]
  have htake : (k ++ r).take 32 = k := by rw [← hk]; exact List.take_left k r
  constructor <;> simp [parse_keypair_from_string, hlen, hk, htake]

/-- Witness for `keypair_prefix_equiv` on the 64-byte credential
`0^32 ++ 1^32` versus the 32-byte credential `0^32`. -/
theorem keypair_prefix_equiv_witness :
    (parse_keypair_from_string (CredentialBytes.jsonArr
        (List.replicate 32 0 ++ List.replicate 32 1))).map (fun _ => "Derived")
      = (parse_keypair_from_string (CredentialBytes.jsonArr
        (List.replicate 32 0))).map (fun _ => "Derived")
    ∧ (parse_keypair_from_string (CredentialBytes.base58
        (List.replicate 32 0 ++ List.replicate 32 1))).map (fun _ => "Derived")
      = (parse_keypair_from_string (CredentialBytes.base58
        (List.replicate 32 0))).map (fun _ => "Derived") :=
  keypair_prefix_equiv (List.replicate 32 0) (List.replicate 32 1)
    (fun _ => "Derived") (by decide) (by decide)

end ATP
